import Mathlib

/-!
Verification of the Lens Master product-customization and pricing core
(`src/App.tsx`, `src/constants.tsx`, `src/types.ts`,
`src/services/geminiService.ts`) against its specification.

The TypeScript code is shallowly embedded: the lens pricing table, the
price calculator `calculateTotal`, the prescription spread-merge performed
on extraction success, the advisory fetch with its module-level
`recommendationCache`, and the customization stepper state are translated
into executable Lean definitions.  JavaScript `undefined` lookups and the
NaN they produce under `+=` are modelled with `Option ℚ`, where `none`
stands for NaN; partial JSON records from the extraction adapter are
modelled with `Option` fields.
-/

namespace LensMaster

/-- Lens type union from `src/types.ts` (`'Single Vision' | 'Bifocal' | 'Progressive'`). -/
inductive LensType where
  | singleVision
  | bifocal
  | progressive
deriving DecidableEq

/-- Lens material union from `src/types.ts` (`'Plastic' | 'Polycarbonate' | 'High Index'`). -/
inductive LensMaterial where
  | plastic
  | polycarbonate
  | highIndex
deriving DecidableEq

/-- `LensSelection` interface from `src/types.ts`: coatings are a `string[]`
(a list, not a set) and `priceAdjustment` is a number. -/
structure LensSelection where
  type : LensType
  material : LensMaterial
  coatings : List String
  priceAdjustment : ℚ
deriving DecidableEq

/-- Shape of the `LENS_PRICING` constant from `src/constants.tsx`.  The
`types` and `materials` maps are indexed by the typed unions (every key is
present), while `coatings` is indexed by an arbitrary string, so a lookup
can miss (JS `undefined`, modelled as `none`). -/
structure LensPricingTable where
  types : LensType → ℚ
  materials : LensMaterial → ℚ
  coatings : String → Option ℚ

/-- The `LENS_PRICING` table from `src/constants.tsx`. -/
def LENS_PRICING : LensPricingTable where
  types := fun t =>
    match t with
    | .singleVision => 50
    | .bifocal => 120
    | .progressive => 250
  materials := fun m =>
    match m with
    | .plastic => 0
    | .polycarbonate => 40
    | .highIndex => 100
  coatings := fun c =>
    if c = "Anti-glare" then some 30
    else if c = "Blue Light" then some 45
    else if c = "UV Protection" then some 20
    else if c = "Scratch Resistant" then some 25
    else none

/-- JavaScript `+` on numbers where either operand may be NaN (`none`):
NaN propagates through addition. -/
def jsAdd : Option ℚ → Option ℚ → Option ℚ
  | some x, some y => some (x + y)
  | _, _ => none

/-- `calculateTotal` from `src/App.tsx` (lines 291-301): starts `extra` at 0;
for power-category products adds the type adjustment, the material
adjustment, and then `forEach` coating in the list adds
`LENS_PRICING.coatings[c]` (an unknown key yields `undefined`, turning the
running total into NaN, i.e. `none`); finally returns `product.price + extra`. -/
def calculateTotal (price : ℚ) (isPower : Bool) (sel : LensSelection) : Option ℚ :=
  let extra : Option ℚ := some 0
  let extra : Option ℚ :=
    if isPower then
      let extra := jsAdd extra (some (LENS_PRICING.types sel.type))
      let extra := jsAdd extra (some (LENS_PRICING.materials sel.material))
      sel.coatings.foldl (fun acc c => jsAdd acc (LENS_PRICING.coatings c)) extra
    else extra
  jsAdd (some price) extra

example : calculateTotal 189 true ⟨.progressive, .highIndex, ["Anti-glare"], 0⟩ = some 569 := by
  simp [calculateTotal, jsAdd, LENS_PRICING]
  norm_num

example : calculateTotal 189 true ⟨.singleVision, .plastic, ["Anti-glare", "Anti-glare"], 0⟩ = some 299 := by
  simp [calculateTotal, jsAdd, LENS_PRICING]
  norm_num

example : calculateTotal 189 true ⟨.singleVision, .plastic, ["Polarized"], 0⟩ = none := by
  simp [calculateTotal, jsAdd, LENS_PRICING]

example : calculateTotal 159 false ⟨.progressive, .highIndex, ["Anti-glare"], 7⟩ = some 159 := by
  simp [calculateTotal, jsAdd]

/-- One eye's measurements (`rightEye` / `leftEye` sub-records of the
`Prescription` interface in `src/types.ts`).  Each field is `Option` because
the extraction adapter's JSON schema (`src/services/geminiService.ts`)
marks no property as required, so any subset may be returned. -/
structure EyeData where
  sph : Option String
  cyl : Option String
  axis : Option String
deriving DecidableEq

/-- The in-progress prescription state of `ProductCustomizer`
(`Partial<Prescription>` in `src/App.tsx`): every top-level field may be
absent. -/
structure PrescriptionData where
  rightEye : Option EyeData
  leftEye : Option EyeData
  pd : Option String
deriving DecidableEq

/-- One field of a JavaScript object spread `{...prev, ...upd}`: a key
present in `upd` overrides, an absent one keeps `prev`'s value. -/
def spreadField {α : Type} (prev upd : Option α) : Option α :=
  match upd with
  | some v => some v
  | none => prev

/-- The merge performed on extraction success in `handleFileUpload`
(`src/App.tsx` line 332): `setPrescription(prev => ({ ...prev, ...data }))`.
The spread is shallow: it acts on the top-level keys `rightEye`, `leftEye`,
`pd` only, so an eye object returned by the extractor replaces the previous
eye object wholesale. -/
def mergePrescription (prev d : PrescriptionData) : PrescriptionData where
  rightEye := spreadField prev.rightEye d.rightEye
  leftEye := spreadField prev.leftEye d.leftEye
  pd := spreadField prev.pd d.pd

/-- Observable outcome of `handleFileUpload` (`src/App.tsx` lines 323-344)
once the extraction adapter settles: the resulting prescription state, the
message surfaced via `alert` (if any), and the final `isAiLoading` flag
(reset in the `finally` block). -/
structure UploadResult where
  prescription : PrescriptionData
  alertMessage : Option String
  isAiLoading : Bool
deriving DecidableEq

/-- `handleFileUpload`'s settlement logic from `src/App.tsx`: on success the
extraction output is spread-merged into the prescription; on failure the
error is caught, the fallback message is alerted, and the prescription is
left untouched.  The function is total: no exception escapes the handler. -/
def handleFileUpload (prev : PrescriptionData)
    (outcome : Except Unit PrescriptionData) : UploadResult :=
  match outcome with
  | .ok d => ⟨mergePrescription prev d, none, false⟩
  | .error _ => ⟨prev, some "Could not analyze prescription. Please enter manually.", false⟩

/-- State touched by `fetchRecommendation` (`src/App.tsx` lines 303-321):
the module-level `recommendationCache` (a JS object used as a string map,
modelled as an association list where the most recent write is at the
head), the `lensRecommendation` component state, and the `isRecLoading`
flag. -/
structure AdvisorState where
  recommendationCache : List (String × String)
  lensRecommendation : Option String
  isRecLoading : Bool
deriving DecidableEq

/-- Lookup in the `recommendationCache` object (`recommendationCache[cacheKey]`). -/
def cacheLookup : List (String × String) → String → Option String
  | [], _ => none
  | (k, v) :: rest, key => if k = key then some v else cacheLookup rest key

/-- `const cleanedRec = rec || "Based on your data, standard materials are
suitable."` — a falsy adapter result (absent or empty string) is replaced by
the fallback text. -/
def cleanRecommendation : Option String → String
  | some s => if s = "" then "Based on your data, standard materials are suitable." else s
  | none => "Based on your data, standard materials are suitable."

/-- Observable outcome of one `fetchRecommendation` invocation: the state
after it settles, how many external `getLensRecommendation` calls it made,
and whether it ever set the loading indicator (`setIsRecLoading(true)`). -/
structure FetchOutcome where
  state : AdvisorState
  externalCalls : Nat
  loadingShown : Bool
deriving DecidableEq

/-- `fetchRecommendation` from `src/App.tsx`: on a cache hit it sets the
recommendation from the cache and returns before any network call or
loading-indicator update; on a miss it shows the loading indicator, calls
the adapter once, and on success stores the cleaned result in the cache
and the component state (on failure it only logs); `isRecLoading` is reset
in the `finally` block.  `cacheKey` stands for `JSON.stringify(pData)`, the
deterministic serialization of the input; `adapter` is the settlement of
the external call. -/
def fetchRecommendation (st : AdvisorState) (cacheKey : String)
    (adapter : Except Unit (Option String)) : FetchOutcome :=
  match cacheLookup st.recommendationCache cacheKey with
  | some cached => ⟨{ st with lensRecommendation := some cached }, 0, false⟩
  | none =>
    match adapter with
    | .ok r =>
      let cleanedRec := cleanRecommendation r
      ⟨⟨(cacheKey, cleanedRec) :: st.recommendationCache, some cleanedRec, false⟩, 1, true⟩
    | .error _ => ⟨{ st with isRecLoading := false }, 1, true⟩

/-- Mutable state of one `ProductCustomizer` session (`src/App.tsx`
lines 272-286): the current step and the in-progress prescription and lens
selection, plus the advisory text once it has arrived. -/
structure Session where
  step : Nat
  prescription : PrescriptionData
  lensSelection : LensSelection
  lensRecommendation : Option String
deriving DecidableEq

/-- The `useState` initializers of `ProductCustomizer`: step 1, default
prescription `{sph:"0.00", cyl:"0.00", axis:"0"}` per eye with `pd:"63"`,
and lens selection `{type:'Single Vision', material:'Plastic', coatings:[],
priceAdjustment:0}`. -/
def initialSession : Session where
  step := 1
  prescription :=
    ⟨some ⟨some "0.00", some "0.00", some "0"⟩,
     some ⟨some "0.00", some "0.00", some "0"⟩,
     some "63"⟩
  lensSelection := ⟨.singleVision, .plastic, [], 0⟩
  lensRecommendation := none

/-- JS spread of a possibly-undefined eye object (`{...prescription.rightEye!, ...}`):
spreading `undefined` yields the empty object. -/
def eyeOrEmpty : Option EyeData → EyeData
  | some e => e
  | none => ⟨none, none, none⟩

/-- The state-mutating operations the `ProductCustomizer` UI can perform on
a session (`src/App.tsx` lines 389-513): the seven prescription field
inputs at step 1, the lens-type and material pickers at step 2, the
`handleNextStep` button, the direct `setStep` buttons (Back at steps 2 and
3, Review at step 2), the extraction merge on upload success, and the
arrival of an advisory text. -/
inductive SessionOp where
  | editRightSph (v : String)
  | editRightCyl (v : String)
  | editRightAxis (v : String)
  | editLeftSph (v : String)
  | editLeftCyl (v : String)
  | editLeftAxis (v : String)
  | editPd (v : String)
  | selectType (t : LensType)
  | selectMaterial (m : LensMaterial)
  | nextStep
  | gotoStep (n : Nat)
  | extractionMerge (d : PrescriptionData)
  | recommendationArrived (s : String)
deriving DecidableEq

/-- Effect of one UI operation on the session state, read off the
corresponding `onChange`/`onClick` handler in `src/App.tsx`.  Field inputs
spread the previous record and override one field; the type and material
pickers spread the previous `lensSelection` and override one field
(`{...lensSelection, type}` / `{...lensSelection, material}`);
`handleNextStep` goes `1 ↦ 2` and otherwise `step+1`; the Back/Review
buttons call `setStep` with a literal. -/
def applyOp (s : Session) : SessionOp → Session
  | .editRightSph v =>
      { s with prescription :=
          { s.prescription with rightEye := some { eyeOrEmpty s.prescription.rightEye with sph := some v } } }
  | .editRightCyl v =>
      { s with prescription :=
          { s.prescription with rightEye := some { eyeOrEmpty s.prescription.rightEye with cyl := some v } } }
  | .editRightAxis v =>
      { s with prescription :=
          { s.prescription with rightEye := some { eyeOrEmpty s.prescription.rightEye with axis := some v } } }
  | .editLeftSph v =>
      { s with prescription :=
          { s.prescription with leftEye := some { eyeOrEmpty s.prescription.leftEye with sph := some v } } }
  | .editLeftCyl v =>
      { s with prescription :=
          { s.prescription with leftEye := some { eyeOrEmpty s.prescription.leftEye with cyl := some v } } }
  | .editLeftAxis v =>
      { s with prescription :=
          { s.prescription with leftEye := some { eyeOrEmpty s.prescription.leftEye with axis := some v } } }
  | .editPd v =>
      { s with prescription := { s.prescription with pd := some v } }
  | .selectType t =>
      { s with lensSelection := { s.lensSelection with type := t } }
  | .selectMaterial m =>
      { s with lensSelection := { s.lensSelection with material := m } }
  | .nextStep =>
      { s with step := if s.step = 1 then 2 else s.step + 1 }
  | .gotoStep n =>
      { s with step := n }
  | .extractionMerge d =>
      { s with prescription := mergePrescription s.prescription d }
  | .recommendationArrived str =>
      { s with lensRecommendation := some str }

/-- A sequence of UI operations applied in order. -/
def applyOps (s : Session) (ops : List SessionOp) : Session :=
  ops.foldl applyOp s

/-- The cart line item built by `handleFinish` (`src/App.tsx` lines 357-366):
`{...product, finalPrice: calculateTotal, prescription: isPower ?
prescription : null, lensSelection: isPower ? lensSelection : null,
customized: true}`. -/
structure CartLineItem where
  price : ℚ
  finalPrice : Option ℚ
  prescription : Option PrescriptionData
  lensSelection : Option LensSelection
  customized : Bool
deriving DecidableEq

/-- `handleFinish` from `src/App.tsx`, applied to the current session state. -/
def handleFinish (price : ℚ) (isPower : Bool) (s : Session) : CartLineItem where
  price := price
  finalPrice := calculateTotal price isPower s.lensSelection
  prescription := if isPower then some s.prescription else none
  lensSelection := if isPower then some s.lensSelection else none
  customized := true

/-- What `ProductCustomizer` renders: for a non-power product it returns
early with the plain product page whose only action is `handleFinish`
(Add to Cart); for a power product it renders the three-step flow
(`src/App.tsx` lines 368-513). -/
inductive CustomizerView where
  | directAddToCart
  | stepper (step : Nat)
deriving DecidableEq

/-- The branch at `src/App.tsx` line 368: `if (!isPower) return <direct add
to cart page>`, otherwise the stepper at the session's current step. -/
def customizerView (isPower : Bool) (s : Session) : CustomizerView :=
  if isPower then .stepper s.step else .directAddToCart

/-! ### Helper lemmas -/

/-- When every coating of the list is known to the pricing table, the
NaN-propagating fold computes the plain sum of the adjustments. -/
theorem foldl_jsAdd_of_known (l : List String) (x : ℚ)
    (h : ∀ c ∈ l, (LENS_PRICING.coatings c).isSome) :
    l.foldl (fun acc c => jsAdd acc (LENS_PRICING.coatings c)) (some x)
      = some (x + (l.map (fun c => (LENS_PRICING.coatings c).getD 0)).sum) := by
  induction l generalizing x with
  | nil => simp
  | cons c rest ih =>
    obtain ⟨v, hv⟩ := Option.isSome_iff_exists.mp (h c (by simp))
    have hrest : ∀ c' ∈ rest, (LENS_PRICING.coatings c').isSome := by
      intro c' hc'
      exact h c' (by simp [hc'])
    have hstep : jsAdd (some x) (LENS_PRICING.coatings c) = some (x + v) := by
      rw [hv]
      rfl
    rw [List.foldl_cons, hstep, ih (x + v) hrest]
    simp [hv, add_assoc]

/-- `calculateTotal` for a power product, unfolded one step: base price plus
the NaN-propagating fold over the coatings, seeded with the type and
material adjustments. -/
theorem calculateTotal_power (price : ℚ) (sel : LensSelection) :
    calculateTotal price true sel
      = jsAdd (some price)
          (sel.coatings.foldl (fun acc c => jsAdd acc (LENS_PRICING.coatings c))
            (some (0 + LENS_PRICING.types sel.type + LENS_PRICING.materials sel.material))) := by
  simp [calculateTotal, jsAdd]

/-! ### C1 — power-product price formula -/

/-- Claim C1, counterexample to the claim as stated: the claim requires a
coating appearing twice in the list to contribute its adjustment only once
(price `189 + 50 + 0 + 30 = 269`), but `calculateTotal` iterates the list
with `forEach`, so the duplicated `"Anti-glare"` (+30) is added twice and
the computed price is `299`. -/
theorem c1_dedup_counterexample :
    calculateTotal 189 true ⟨.singleVision, .plastic, ["Anti-glare", "Anti-glare"], 0⟩ = some 299 ∧
    (299 : ℚ) ≠ 189 + 50 + 0 + 30 := by
  constructor
  · simp [calculateTotal, jsAdd, LENS_PRICING]
    norm_num
  · norm_num

/-- Claim C1 (amended): for a power-category product whose selected
coatings are all present in the pricing table, the price computed at
Finish equals the base price plus the pricing-table adjustment for the
selected lens type, plus the adjustment for the selected material, plus
the adjustment of each occurrence of a coating in the coatings list (a
coating listed twice is charged twice — the code does not deduplicate);
the coating contribution is order-independent: any permutation of the
coatings list yields the same total. -/
theorem c1_power_price_formula (price : ℚ) (sel : LensSelection)
    (h : ∀ c ∈ sel.coatings, (LENS_PRICING.coatings c).isSome) :
    calculateTotal price true sel
      = some (price + LENS_PRICING.types sel.type + LENS_PRICING.materials sel.material
          + (sel.coatings.map (fun c => (LENS_PRICING.coatings c).getD 0)).sum) ∧
    ∀ l₂ : List String, sel.coatings.Perm l₂ →
      calculateTotal price true sel
        = calculateTotal price true ⟨sel.type, sel.material, l₂, sel.priceAdjustment⟩ := by
  constructor
  · rw [calculateTotal_power, foldl_jsAdd_of_known sel.coatings _ h]
    simp [jsAdd, add_assoc]
  · intro l₂ hperm
    have h₂ : ∀ c ∈ l₂, (LENS_PRICING.coatings c).isSome := by
      intro c hc
      exact h c (hperm.mem_iff.mpr hc)
    rw [calculateTotal_power, calculateTotal_power,
        foldl_jsAdd_of_known sel.coatings _ h, foldl_jsAdd_of_known l₂ _ h₂,
        (hperm.map (fun c => (LENS_PRICING.coatings c).getD 0)).sum_eq]

/-- Witness for C1 at a concrete input: base 100, Single Vision (+50),
Plastic (+0), coatings Anti-glare (+30) and Blue Light (+45) total 225, in
either order. -/
theorem c1_power_price_formula_witness :
    calculateTotal 100 true ⟨.singleVision, .plastic, ["Anti-glare", "Blue Light"], 0⟩ = some 225 ∧
    calculateTotal 100 true ⟨.singleVision, .plastic, ["Blue Light", "Anti-glare"], 0⟩ = some 225 := by
  have h := c1_power_price_formula 100
    ⟨.singleVision, .plastic, ["Anti-glare", "Blue Light"], 0⟩ (by decide)
  have h₂ := h.2 ["Blue Light", "Anti-glare"] (List.Perm.swap "Blue Light" "Anti-glare" [])
  constructor
  · rw [h.1]
    simp [LENS_PRICING]
    norm_num
  · rw [← h₂, h.1]
    simp [LENS_PRICING]
    norm_num

/-! ### C2 — unknown coating key -/

/-- Claim C2 (code-bug demonstration): the claim — and the spec's §4.1/§7 —
require an unknown coating key reaching the price calculation to fail fast
with a configuration error.  The code instead performs
`extra += LENS_PRICING.coatings[c]` where the lookup is `undefined`, so the
total silently becomes NaN (`none` in this embedding): no error is raised,
and the result is not the zero-contribution total `189 + 50 + 0` either. -/
theorem c2_unknown_coating_is_nan :
    calculateTotal 189 true ⟨.singleVision, .plastic, ["Polarized"], 0⟩ = none ∧
    calculateTotal 189 true ⟨.singleVision, .plastic, ["Polarized"], 0⟩ ≠ some (189 + 50 + 0) := by
  constructor
  · simp [calculateTotal, jsAdd, LENS_PRICING]
  · simp [calculateTotal, jsAdd, LENS_PRICING]

/-! ### C3 — merge-on-extraction-success semantics -/

/-- A prescription fully populated by manual entry: right eye
`{sph:"-1.00", cyl:"0.50", axis:"90"}`, default left eye, `pd:"63"`. -/
def manualRx : PrescriptionData :=
  ⟨some ⟨some "-1.00", some "0.50", some "90"⟩,
   some ⟨some "0.00", some "0.00", some "0"⟩,
   some "63"⟩

/-- An extraction result that returned only `rightEye.sph` (the adapter's
JSON schema marks no property required, so such a result is admissible). -/
def sphOnlyExtraction : PrescriptionData :=
  ⟨some ⟨some "-2.00", none, none⟩, none, none⟩

/-- Claim C3, counterexample to the claim as stated: the claim requires
every sub-field the extraction did not supply (here `rightEye.cyl`,
previously `"0.50"`) to keep its pre-merge value, but the spread
`{...prev, ...data}` is shallow, so the extraction's partial `rightEye`
replaces the previous right eye wholesale and the merged `rightEye.cyl` is
absent rather than `"0.50"`. -/
theorem c3_shallow_merge_counterexample :
    (mergePrescription manualRx sphOnlyExtraction).rightEye = some ⟨some "-2.00", none, none⟩ ∧
    (mergePrescription manualRx sphOnlyExtraction).rightEye.map EyeData.cyl ≠ some (some "0.50") := by
  constructor
  · rfl
  · decide

/-- Claim C3 (amended): the merge applied on extraction success overlays
the extraction's output onto the existing prescription field-by-field at
the top level only: each of the top-level fields `rightEye`, `leftEye` and
`pd` for which the extraction supplied no value keeps its pre-merge value,
but a top-level field the extraction did return replaces the existing
value wholesale — in particular a partially-returned eye object overwrites
all sub-fields of that eye, rather than being merged sub-field by
sub-field. -/
theorem c3_merge_is_top_level_overlay (prev d : PrescriptionData) :
    (mergePrescription prev d).rightEye = (if d.rightEye.isSome then d.rightEye else prev.rightEye) ∧
    (mergePrescription prev d).leftEye = (if d.leftEye.isSome then d.leftEye else prev.leftEye) ∧
    (mergePrescription prev d).pd = (if d.pd.isSome then d.pd else prev.pd) := by
  refine ⟨?_, ?_, ?_⟩
  · cases hr : d.rightEye <;> simp [mergePrescription, spreadField, hr]
  · cases hl : d.leftEye <;> simp [mergePrescription, spreadField, hl]
  · cases hp : d.pd <;> simp [mergePrescription, spreadField, hp]

/-! ### C5 — non-power products bypass customization -/

/-- Claim C5: for a non-power-category product, whatever the session's
`LensSelection` and `Prescription` state, the committed cart line item has
`finalPrice` equal to the base price, its prescription and lens selection
are `null`, and the customizer renders the direct add-to-cart page instead
of the step flow. -/
theorem c5_non_power_base_price (price : ℚ) (s : Session) :
    handleFinish price false s = ⟨price, some price, none, none, true⟩ ∧
    customizerView false s = .directAddToCart := by
  constructor
  · simp [handleFinish, calculateTotal, jsAdd, customizerView]
  · simp [customizerView]

/-! ### C6 — advisory cache idempotence -/

/-- Claim C6: starting from any advisor state whose cache has no entry for
the serialized prescription `cacheKey`, a first `fetchRecommendation` that
succeeds makes exactly one external call, and a second request for the
same key is served from the `recommendationCache`: it makes no external
call whatsoever (the adapter's behaviour `adapter₂` is irrelevant), never
sets the loading indicator, and synchronously delivers the cached text. -/
theorem c6_advisory_cache_idempotent (st : AdvisorState) (cacheKey : String)
    (r : Option String) (adapter₂ : Except Unit (Option String))
    (h : cacheLookup st.recommendationCache cacheKey = none) :
    (fetchRecommendation st cacheKey (.ok r)).externalCalls = 1 ∧
    (fetchRecommendation (fetchRecommendation st cacheKey (.ok r)).state cacheKey adapter₂).externalCalls = 0 ∧
    (fetchRecommendation (fetchRecommendation st cacheKey (.ok r)).state cacheKey adapter₂).loadingShown = false ∧
    (fetchRecommendation (fetchRecommendation st cacheKey (.ok r)).state
        cacheKey adapter₂).state.lensRecommendation = some (cleanRecommendation r) := by
  simp [fetchRecommendation, h, cacheLookup]

/-- Witness for C6: empty cache, key `"rx"`, adapter text `"advice"`; the
second request is a pure cache hit even though its adapter would fail. -/
theorem c6_advisory_cache_idempotent_witness :
    (fetchRecommendation ⟨[], none, false⟩ "rx" (.ok (some "advice"))).externalCalls = 1 ∧
    (fetchRecommendation (fetchRecommendation ⟨[], none, false⟩ "rx" (.ok (some "advice"))).state
        "rx" (.error ())).externalCalls = 0 ∧
    (fetchRecommendation (fetchRecommendation ⟨[], none, false⟩ "rx" (.ok (some "advice"))).state
        "rx" (.error ())).loadingShown = false ∧
    (fetchRecommendation (fetchRecommendation ⟨[], none, false⟩ "rx" (.ok (some "advice"))).state
        "rx" (.error ())).state.lensRecommendation = some (cleanRecommendation (some "advice")) :=
  c6_advisory_cache_idempotent ⟨[], none, false⟩ "rx" (some "advice") (.error ()) rfl

/-! ### C7 — extraction failure is recovered locally -/

/-- Claim C7: when the extraction adapter fails, `handleFileUpload` catches
the error (the handler is a total function — the session does not crash),
surfaces the user-facing message "Could not analyze prescription. Please
enter manually.", leaves every field of the in-progress prescription
exactly as it was, and resets the scanning indicator, so manual entry
remains available. -/
theorem c7_extraction_failure_recovered (prev : PrescriptionData) :
    handleFileUpload prev (.error ())
      = ⟨prev, some "Could not analyze prescription. Please enter manually.", false⟩ := by
  rfl

/-! ### Session frame lemmas -/

/-- `jsAdd` on two genuine numbers is plain addition. -/
theorem jsAdd_some (x y : ℚ) : jsAdd (some x) (some y) = some (x + y) := rfl

/-- No UI operation ever touches the `coatings` field of the lens
selection: the field inputs and the extraction merge write only the
prescription, the type and material pickers spread the previous selection
(copying `coatings`), and the step buttons write only `step`. -/
theorem applyOp_coatings (s : Session) (op : SessionOp) :
    (applyOp s op).lensSelection.coatings = s.lensSelection.coatings := by
  cases op <;> rfl

/-- Coatings are preserved along any sequence of UI operations. -/
theorem applyOps_coatings (s : Session) (ops : List SessionOp) :
    (applyOps s ops).lensSelection.coatings = s.lensSelection.coatings := by
  induction ops generalizing s with
  | nil => rfl
  | cons op rest ih =>
    rw [applyOps, List.foldl_cons]
    calc (List.foldl applyOp (applyOp s op) rest).lensSelection.coatings
        = (applyOp s op).lensSelection.coatings := ih (applyOp s op)
      _ = s.lensSelection.coatings := applyOp_coatings s op

/-- No UI operation ever touches the `priceAdjustment` field of the lens
selection. -/
theorem applyOp_priceAdjustment (s : Session) (op : SessionOp) :
    (applyOp s op).lensSelection.priceAdjustment = s.lensSelection.priceAdjustment := by
  cases op <;> rfl

/-- `priceAdjustment` is preserved along any sequence of UI operations. -/
theorem applyOps_priceAdjustment (s : Session) (ops : List SessionOp) :
    (applyOps s ops).lensSelection.priceAdjustment = s.lensSelection.priceAdjustment := by
  induction ops generalizing s with
  | nil => rfl
  | cons op rest ih =>
    rw [applyOps, List.foldl_cons]
    calc (List.foldl applyOp (applyOp s op) rest).lensSelection.priceAdjustment
        = (applyOp s op).lensSelection.priceAdjustment := ih (applyOp s op)
      _ = s.lensSelection.priceAdjustment := applyOp_priceAdjustment s op

/-! ### C8 — backward/forward detour preserves prescription edits -/

/-- The step traversal 1→2→1→2→3 as issued by the UI buttons: Next
(`handleNextStep`), Back (`setStep(1)`), Next, Review Final Total
(`setStep(3)`). -/
def detourOps : List SessionOp := [.nextStep, .gotoStep 1, .nextStep, .gotoStep 3]

/-- Claim C8: from any session at step 1 — in particular one whose
prescription fields were just edited — the traversal 1→2→1→2→3 passes
through exactly those steps, leaves the prescription (and the lens
selection) untouched, and the cart line item committed by Finish carries
that latest prescription, not the initial defaults. -/
theorem c8_detour_preserves_edits (price : ℚ) (s : Session) (h : s.step = 1) :
    (applyOps s [.nextStep]).step = 2 ∧
    (applyOps s [.nextStep, .gotoStep 1]).step = 1 ∧
    (applyOps s [.nextStep, .gotoStep 1, .nextStep]).step = 2 ∧
    (applyOps s detourOps).step = 3 ∧
    (applyOps s detourOps).prescription = s.prescription ∧
    (applyOps s detourOps).lensSelection = s.lensSelection ∧
    (handleFinish price true (applyOps s detourOps)).prescription = some s.prescription := by
  refine ⟨?_, ?_, ?_, ?_, ?_, ?_, ?_⟩ <;>
    simp [applyOps, applyOp, detourOps, handleFinish, h]

/-- Witness for C8: edit `pd` to `"60"` at step 1, run the detour, finish —
the committed prescription is the edited one, whose `pd` is `"60"` rather
than the default `"63"`. -/
theorem c8_detour_preserves_edits_witness :
    (handleFinish 189 true (applyOps (applyOp initialSession (.editPd "60")) detourOps)).prescription
      = some (applyOp initialSession (.editPd "60")).prescription ∧
    (applyOp initialSession (.editPd "60")).prescription.pd = some "60" :=
  ⟨(c8_detour_preserves_edits 189 (applyOp initialSession (.editPd "60")) rfl).2.2.2.2.2.2, rfl⟩

/-! ### C9 — coatings are empty in every reachable state -/

/-- Claim C9: in every state reachable from the initial session by UI
operations, the lens selection's coatings list is empty — the session
initializes it to `[]` and no operation adds a coating — so the coating
contribution to the committed price of a power product is exactly 0: the
total is base price plus type and material adjustments only. -/
theorem c9_coatings_always_empty (ops : List SessionOp) (price : ℚ) :
    (applyOps initialSession ops).lensSelection.coatings = [] ∧
    calculateTotal price true (applyOps initialSession ops).lensSelection
      = some (price + LENS_PRICING.types (applyOps initialSession ops).lensSelection.type
          + LENS_PRICING.materials (applyOps initialSession ops).lensSelection.material) := by
  have hempty : (applyOps initialSession ops).lensSelection.coatings = [] :=
    applyOps_coatings initialSession ops
  refine ⟨hempty, ?_⟩
  rw [calculateTotal_power, hempty, List.foldl_nil, jsAdd_some]
  exact congrArg some (by ring)

/-! ### C10 — priceAdjustment is dead state -/

/-- Claim C10: the lens selection's `priceAdjustment` is initialized to 0
and never written by any UI operation, `calculateTotal` is computed
without reading it (two selections differing only in `priceAdjustment`
price identically, for power and non-power products alike), and the lens
selection on a committed power-product line item always carries
`priceAdjustment = 0`. -/
theorem c10_price_adjustment_dead (ops : List SessionOp) (price : ℚ)
    (isPower : Bool) (sel : LensSelection) (x : ℚ) :
    (applyOps initialSession ops).lensSelection.priceAdjustment = 0 ∧
    calculateTotal price isPower ⟨sel.type, sel.material, sel.coatings, x⟩
      = calculateTotal price isPower sel ∧
    (handleFinish price true (applyOps initialSession ops)).lensSelection.map
        LensSelection.priceAdjustment = some 0 := by
  have hzero : (applyOps initialSession ops).lensSelection.priceAdjustment = 0 :=
    applyOps_priceAdjustment initialSession ops
  refine ⟨hzero, rfl, ?_⟩
  simp [handleFinish, hzero]

end LensMaster
